import Mathlib

/-!
Verification of the Scenario Generator (function generate_scenario in
src/GlobalWarmingForecast-main/app.py) of the Global_Warming_Detection-System
repository.

Modelling choices, traceable to the source:

* A pandas DataFrame is an ordered association list of named columns; numeric
  cell values are exact rationals (every rational is a finite number, matching
  the contract that offsets are finite floating-point scalars).
* Python object identity is modelled by a store (list of DataFrame objects)
  addressed by natural-number references.  df.copy() allocates a fresh object
  at the end of the store; the pandas augmented assignments then mutate only
  that fresh object.  This makes the non-mutation of the baseline a real
  statement rather than an artefact of a pure embedding.
* scenario_df[c] += q raises KeyError c when column c is absent, exactly as
  pandas __getitem__ does; otherwise it adds q to every entry of column c.
* sklearn LinearRegression (fit_intercept true) followed by predict on the
  same design matrix returns the least-squares fitted values: the orthogonal
  projection of the target vector onto the span of the all-ones intercept
  column and the regressor columns.  scipy lstsq computes this projection for
  full-rank and rank-deficient (collinear) inputs alike and never raises a
  singularity error; it does raise ValueError when given zero samples.  We
  compute the projection exactly over the rationals by Gram-Schmidt
  orthogonalisation (a zero orthogonalised vector contributes nothing because
  division by zero is zero in Lean's rationals).
-/

abbrev Col := List ℚ

structure DataFrame where
  cols : List (String × Col)
deriving DecidableEq, Repr, Inhabited

/-- pandas column lookup on the underlying association list: first entry wins. -/
def lookupCol : List (String × Col) → String → Option Col
  | [], _ => none
  | (n, v) :: rest, c => if n = c then some v else lookupCol rest c

/-- pandas column assignment on the association list: replace the first entry
with that name in place, or append a new column at the end. -/
def setColList : List (String × Col) → String → Col → List (String × Col)
  | [], c, v => [(c, v)]
  | (n, w) :: rest, c, v =>
    if n = c then (c, v) :: rest else (n, w) :: setColList rest c v

def getCol (df : DataFrame) (c : String) : Option Col :=
  lookupCol df.cols c

def setCol (df : DataFrame) (c : String) (v : Col) : DataFrame :=
  ⟨setColList df.cols c v⟩

/-- Errors generate_scenario can surface: a pandas KeyError naming the missing
column, or an sklearn ValueError from fitting (raised on zero samples). -/
inductive PandasError where
  | keyError : String → PandasError
  | fitError : PandasError
deriving DecidableEq, Repr

/-- The Python heap restricted to DataFrame objects: a reference is an index. -/
abbrev Store := List DataFrame

def getObj (s : Store) (r : Nat) : DataFrame :=
  (s[r]?).getD ⟨[]⟩

def setObj (s : Store) (r : Nat) (d : DataFrame) : Store :=
  s.set r d

/-! Exact linear algebra over rational column vectors. -/

def dot (v w : Col) : ℚ :=
  (List.zipWith (fun a b => a * b) v w).sum

def smul (q : ℚ) (v : Col) : Col :=
  v.map (fun a => q * a)

def vadd (v w : Col) : Col :=
  List.zipWith (fun a b => a + b) v w

def vsub (v w : Col) : Col :=
  List.zipWith (fun a b => a - b) v w

/-- Gram-Schmidt coefficient of v against u; zero when u is the zero vector
because rational division by zero is zero. -/
def projC (v u : Col) : ℚ :=
  dot v u / dot u u

/-- Subtract from v its projections onto each vector of us in turn. -/
def orthStep : List Col → Col → Col
  | [], v => v
  | u :: us, v => orthStep us (vsub v (smul (projC v u) u))

def orthAux : List Col → List Col → List Col
  | us, [] => us
  | us, v :: vs => orthAux (us ++ [orthStep us v]) vs

/-- Gram-Schmidt orthogonalisation of a list of vectors (zero vectors are kept
but contribute nothing to later projections). -/
def orthogonalize (vs : List Col) : List Col :=
  orthAux [] vs

def sumProj : List Col → Col → Col → Col
  | [], _, acc => acc
  | u :: us, y, acc => sumProj us y (vadd acc (smul (projC y u) u))

/-- Orthogonal projection of y onto the span of us (us pairwise orthogonal). -/
def projectOnto (us : List Col) (y : Col) : Col :=
  sumProj us y (List.replicate y.length 0)

/-- Fitted values of the least-squares regression of y on the columns X with
an intercept: the projection of y onto the span of the all-ones column and the
columns of X.  This is what sklearn LinearRegression().fit(X, y).predict(X)
computes (via scipy lstsq), for full-rank and collinear X alike. -/
def lstsqFitted (X : List Col) (y : Col) : Col :=
  projectOnto (orthogonalize (List.replicate y.length 1 :: X)) y

/-- sklearn model.fit(X, y) followed by model.predict(X): validation raises
ValueError on zero samples or mismatched column lengths, otherwise the fitted
values are returned. -/
def linearRegressionFitPredict (X : List Col) (y : Col) : Except PandasError Col :=
  if y.length = 0 then .error .fitError
  else if X.any (fun v => v.length != y.length) then .error .fitError
  else .ok (lstsqFitted X y)

/-! The embedding of generate_scenario itself. -/

/-- scenario_df[c] += q on the object at reference r: KeyError if the column
is absent, otherwise element-wise addition in place on that object. -/
def augAssign (s : Store) (r : Nat) (c : String) (q : ℚ) : Except PandasError Store :=
  match getCol (getObj s r) c with
  | none => .error (.keyError c)
  | some v => .ok (setObj s r (setCol (getObj s r) c (v.map (fun a => a + q))))

/-- df[[c1, ..., ck]]: select a list of columns, KeyError on the first absent one. -/
def selectCols (df : DataFrame) : List String → Except PandasError (List Col)
  | [] => .ok []
  | c :: rest =>
    match getCol df c with
    | none => .error (.keyError c)
    | some v =>
      match selectCols df rest with
      | .error e => .error e
      | .ok vs => .ok (v :: vs)

/-- df[c] as an expression: KeyError when the column is absent. -/
def getColE (df : DataFrame) (c : String) : Except PandasError Col :=
  match getCol df c with
  | none => .error (.keyError c)
  | some v => .ok v

/-- The Scenario Generator, line for line from app.py:

    def generate_scenario(df, co2_change, ch4_change, n2o_change):
        scenario_df = df.copy()
        scenario_df["CO2_Concentration_ppm"] += co2_change
        scenario_df["CH4_Concentration_ppb"] += ch4_change
        scenario_df["N2O_Concentration_ppb"] += n2o_change
        X = scenario_df[["CO2_Concentration_ppm", "CH4_Concentration_ppb", "N2O_Concentration_ppb"]]
        y = scenario_df["Temperature_Anomaly_C"]
        model = LinearRegression()
        model.fit(X, y)
        scenario_df["Predicted_Temperature_Anomaly_C"] = model.predict(X)
        return scenario_df

The store threads the mutable heap; df is a reference into it and the result
is the updated heap together with the reference to scenario_df. -/
def generate_scenario (s : Store) (df : Nat) (co2_change ch4_change n2o_change : ℚ) :
    Except PandasError (Store × Nat) :=
  let scenario_df := s.length
  let s1 := s ++ [getObj s df]
  match augAssign s1 scenario_df "CO2_Concentration_ppm" co2_change with
  | .error e => .error e
  | .ok s2 =>
  match augAssign s2 scenario_df "CH4_Concentration_ppb" ch4_change with
  | .error e => .error e
  | .ok s3 =>
  match augAssign s3 scenario_df "N2O_Concentration_ppb" n2o_change with
  | .error e => .error e
  | .ok s4 =>
  match selectCols (getObj s4 scenario_df)
      ["CO2_Concentration_ppm", "CH4_Concentration_ppb", "N2O_Concentration_ppb"] with
  | .error e => .error e
  | .ok X =>
  match getColE (getObj s4 scenario_df) "Temperature_Anomaly_C" with
  | .error e => .error e
  | .ok y =>
  match linearRegressionFitPredict X y with
  | .error e => .error e
  | .ok preds =>
    .ok (setObj s4 scenario_df
          (setCol (getObj s4 scenario_df) "Predicted_Temperature_Anomaly_C" preds),
         scenario_df)

/-- The two-row example baseline of the specification. -/
def exampleBaseline : DataFrame :=
  ⟨[("Year", [2020, 2021]),
    ("CO2_Concentration_ppm", [400, 402]),
    ("CH4_Concentration_ppb", [1800, 1805]),
    ("N2O_Concentration_ppb", [330, 331]),
    ("Temperature_Anomaly_C", [11/10, 23/20])]⟩

/-- The two-row example baseline with an already-present predicted column. -/
def examplePredicted : DataFrame :=
  ⟨[("Year", [2020, 2021]),
    ("CO2_Concentration_ppm", [400, 402]),
    ("CH4_Concentration_ppb", [1800, 1805]),
    ("N2O_Concentration_ppb", [330, 331]),
    ("Temperature_Anomaly_C", [11/10, 23/20]),
    ("Predicted_Temperature_Anomaly_C", [0, 0])]⟩

/-- A baseline whose three concentration columns are perfectly collinear
(all constant), so the regression is degenerate. -/
def collinearBaseline : DataFrame :=
  ⟨[("CO2_Concentration_ppm", [1, 1]),
    ("CH4_Concentration_ppb", [1, 1]),
    ("N2O_Concentration_ppb", [1, 1]),
    ("Temperature_Anomaly_C", [3, 5])]⟩

/-- The table after the three augmented assignments, given the three
concentration columns of the baseline. -/
def offsetTable (B : DataFrame) (a b c : ℚ) (c1 c2 c3 : Col) : DataFrame :=
  setCol (setCol (setCol B "CO2_Concentration_ppm" (c1.map (fun x => x + a)))
      "CH4_Concentration_ppb" (c2.map (fun x => x + b)))
    "N2O_Concentration_ppb" (c3.map (fun x => x + c))

/-- The scenario_df object generate_scenario returns, given the four relevant
columns of the baseline. -/
def scenarioOut (B : DataFrame) (a b c : ℚ) (c1 c2 c3 ty : Col) : DataFrame :=
  setCol (offsetTable B a b c c1 c2 c3) "Predicted_Temperature_Anomaly_C"
    (lstsqFitted
      [c1.map (fun x => x + a), c2.map (fun x => x + b), c3.map (fun x => x + c)] ty)

/-! Structural lemmas about the association-list and store operations. -/

theorem lookup_setColList_self (l : List (String × Col)) (c : String) (v : Col) :
    lookupCol (setColList l c v) c = some v := by
  induction l with
  | nil => simp [setColList, lookupCol]
  | cons p rest ih =>
    obtain ⟨n, w⟩ := p
    by_cases h : n = c
    · simp [setColList, lookupCol, h]
    · simp [setColList, lookupCol, h, ih]

theorem lookup_setColList_ne (l : List (String × Col)) (c c' : String) (v : Col)
    (h : c' ≠ c) : lookupCol (setColList l c v) c' = lookupCol l c' := by
  induction l with
  | nil => simp [setColList, lookupCol, Ne.symm h]
  | cons p rest ih =>
    obtain ⟨n, w⟩ := p
    by_cases hp : n = c
    · subst hp
      simp [setColList, lookupCol, Ne.symm h]
    · simp [setColList, lookupCol, hp, ih]

theorem getCol_setCol_self (df : DataFrame) (c : String) (v : Col) :
    getCol (setCol df c v) c = some v :=
  lookup_setColList_self df.cols c v

theorem getCol_setCol_ne (df : DataFrame) (c c' : String) (v : Col) (h : c' ≠ c) :
    getCol (setCol df c v) c' = getCol df c' :=
  lookup_setColList_ne df.cols c c' v h

theorem setColList_map_fst_of_found (l : List (String × Col)) (c : String) (v w : Col)
    (h : lookupCol l c = some w) :
    (setColList l c v).map Prod.fst = l.map Prod.fst := by
  induction l with
  | nil => simp [lookupCol] at h
  | cons p rest ih =>
    obtain ⟨n, u⟩ := p
    by_cases hp : n = c
    · simp [setColList, hp]
    · simp only [lookupCol, if_neg hp] at h
      simp [setColList, hp, ih h]

theorem setColList_map_fst_of_none (l : List (String × Col)) (c : String) (v : Col)
    (h : lookupCol l c = none) :
    (setColList l c v).map Prod.fst = l.map Prod.fst ++ [c] := by
  induction l with
  | nil => simp [setColList]
  | cons p rest ih =>
    obtain ⟨n, u⟩ := p
    by_cases hp : n = c
    · simp [lookupCol, hp] at h
    · simp only [lookupCol, if_neg hp] at h
      simp [setColList, hp, ih h]

theorem mem_setColList (l : List (String × Col)) (c : String) (v : Col)
    (p : String × Col) (hp : p ∈ setColList l c v) : p = (c, v) ∨ p ∈ l := by
  induction l with
  | nil => simpa [setColList] using hp
  | cons q rest ih =>
    obtain ⟨n, u⟩ := q
    by_cases hq : n = c
    · rw [setColList, if_pos hq] at hp
      rcases List.mem_cons.mp hp with h | h
      · exact Or.inl h
      · exact Or.inr (List.mem_cons_of_mem _ h)
    · rw [setColList, if_neg hq] at hp
      rcases List.mem_cons.mp hp with h | h
      · exact Or.inr (by simp [h])
      · rcases ih h with h' | h'
        · exact Or.inl h'
        · exact Or.inr (List.mem_cons_of_mem _ h')

theorem getObj_append_self (s : Store) (d : DataFrame) :
    getObj (s ++ [d]) s.length = d := by
  simp [getObj]

theorem setObj_append_self (s : Store) (d d' : DataFrame) :
    setObj (s ++ [d]) s.length d' = s ++ [d'] := by
  induction s with
  | nil => simp [setObj]
  | cons x rest ih =>
    simp only [setObj, List.cons_append, List.length_cons, List.set] at ih ⊢
    simp [setObj, ih]

theorem getObj_of_getElem (s : Store) (r : Nat) (B : DataFrame) (h : s[r]? = some B) :
    getObj s r = B := by
  simp [getObj, h]

theorem getElem_append_left_of_lt (s : Store) (d : DataFrame) (r : Nat)
    (h : r < s.length) : (s ++ [d])[r]? = s[r]? := by
  rw [List.getElem?_append, if_pos h]

theorem augAssign_append (s : Store) (d : DataFrame) (c : String) (q : ℚ) :
    augAssign (s ++ [d]) s.length c q =
      match getCol d c with
      | none => .error (.keyError c)
      | some v => .ok (s ++ [setCol d c (v.map (fun a => a + q))]) := by
  cases h : getCol d c <;>
    simp [augAssign, getObj_append_self, setObj_append_self, h]

/-! Length preservation through the exact least-squares computation. -/

theorem length_smul (q : ℚ) (v : Col) : (smul q v).length = v.length := by
  simp [smul]

theorem length_vadd (v w : Col) : (vadd v w).length = min v.length w.length := by
  simp [vadd]

theorem length_vsub (v w : Col) : (vsub v w).length = min v.length w.length := by
  simp [vsub]

theorem orthStep_length (us : List Col) (v : Col) (n : Nat)
    (hus : ∀ u ∈ us, u.length = n) (hv : v.length = n) :
    (orthStep us v).length = n := by
  induction us generalizing v with
  | nil => simpa [orthStep] using hv
  | cons u us ih =>
    have hu : u.length = n := hus u (List.mem_cons_self u us)
    rw [orthStep]
    exact ih (vsub v (smul (projC v u) u))
      (fun w hw => hus w (List.mem_cons_of_mem u hw))
      (by rw [length_vsub, length_smul, hu, hv]; exact Nat.min_self n)

theorem orthAux_length (vs us : List Col) (n : Nat)
    (hus : ∀ u ∈ us, u.length = n) (hvs : ∀ v ∈ vs, v.length = n) :
    ∀ u ∈ orthAux us vs, u.length = n := by
  induction vs generalizing us with
  | nil => simpa [orthAux] using hus
  | cons v vs ih =>
    intro u hu
    refine ih (us ++ [orthStep us v]) ?_ (fun w hw => hvs w (List.mem_cons_of_mem v hw)) u hu
    intro w hw
    rcases List.mem_append.mp hw with h | h
    · exact hus w h
    · have : w = orthStep us v := by simpa using h
      subst this
      exact orthStep_length us v n hus (hvs v (List.mem_cons_self v vs))

theorem sumProj_length (us : List Col) (y acc : Col) (n : Nat)
    (hus : ∀ u ∈ us, u.length = n) (hacc : acc.length = n) :
    (sumProj us y acc).length = n := by
  induction us generalizing acc with
  | nil => simpa [sumProj] using hacc
  | cons u us ih =>
    rw [sumProj]
    exact ih (vadd acc (smul (projC y u) u))
      (fun w hw => hus w (List.mem_cons_of_mem u hw))
      (by rw [length_vadd, length_smul, hacc, hus u (List.mem_cons_self u us)]
          exact Nat.min_self n)

theorem lstsqFitted_length (X : List Col) (y : Col)
    (hX : ∀ v ∈ X, v.length = y.length) :
    (lstsqFitted X y).length = y.length := by
  refine sumProj_length _ y _ y.length ?_ (by simp)
  refine orthAux_length _ [] y.length (by simp) ?_
  intro v hv
  rcases List.mem_cons.mp hv with h | h
  · subst h; simp
  · exact hX v h

/-! The main characterisation of generate_scenario on a baseline that has the
four required columns. -/

theorem generate_scenario_eq_of_cols
    (s : Store) (r : Nat) (B : DataFrame) (a b c : ℚ) (c1 c2 c3 ty : Col)
    (hr : getObj s r = B)
    (h1 : getCol B "CO2_Concentration_ppm" = some c1)
    (h2 : getCol B "CH4_Concentration_ppb" = some c2)
    (h3 : getCol B "N2O_Concentration_ppb" = some c3)
    (hy : getCol B "Temperature_Anomaly_C" = some ty)
    (l1 : c1.length = ty.length) (l2 : c2.length = ty.length)
    (l3 : c3.length = ty.length) (hn : ty ≠ []) :
    generate_scenario s r a b c =
      .ok (s ++ [scenarioOut B a b c c1 c2 c3 ty], s.length) := by
  have e1 : augAssign (s ++ [B]) s.length "CO2_Concentration_ppm" a
      = .ok (s ++ [setCol B "CO2_Concentration_ppm" (c1.map (fun x => x + a))]) := by
    rw [augAssign_append, h1]
  have g2 : getCol (setCol B "CO2_Concentration_ppm" (c1.map (fun x => x + a)))
      "CH4_Concentration_ppb" = some c2 := by
    rw [getCol_setCol_ne _ _ _ _ (by decide)]; exact h2
  have e2 : augAssign (s ++ [setCol B "CO2_Concentration_ppm" (c1.map (fun x => x + a))])
      s.length "CH4_Concentration_ppb" b
      = .ok (s ++ [setCol (setCol B "CO2_Concentration_ppm" (c1.map (fun x => x + a)))
          "CH4_Concentration_ppb" (c2.map (fun x => x + b))]) := by
    rw [augAssign_append, g2]
  have g3 : getCol (setCol (setCol B "CO2_Concentration_ppm" (c1.map (fun x => x + a)))
      "CH4_Concentration_ppb" (c2.map (fun x => x + b))) "N2O_Concentration_ppb"
      = some c3 := by
    rw [getCol_setCol_ne _ _ _ _ (by decide), getCol_setCol_ne _ _ _ _ (by decide)]
    exact h3
  have e3 : augAssign (s ++ [setCol (setCol B "CO2_Concentration_ppm"
        (c1.map (fun x => x + a))) "CH4_Concentration_ppb" (c2.map (fun x => x + b))])
      s.length "N2O_Concentration_ppb" c
      = .ok (s ++ [offsetTable B a b c c1 c2 c3]) := by
    rw [augAssign_append, g3]; rfl
  have p1 : getCol (offsetTable B a b c c1 c2 c3) "CO2_Concentration_ppm"
      = some (c1.map (fun x => x + a)) := by
    rw [offsetTable, getCol_setCol_ne _ _ _ _ (by decide),
      getCol_setCol_ne _ _ _ _ (by decide)]
    exact getCol_setCol_self _ _ _
  have p2 : getCol (offsetTable B a b c c1 c2 c3) "CH4_Concentration_ppb"
      = some (c2.map (fun x => x + b)) := by
    rw [offsetTable, getCol_setCol_ne _ _ _ _ (by decide)]
    exact getCol_setCol_self _ _ _
  have p3 : getCol (offsetTable B a b c c1 c2 c3) "N2O_Concentration_ppb"
      = some (c3.map (fun x => x + c)) :=
    getCol_setCol_self _ _ _
  have py : getCol (offsetTable B a b c c1 c2 c3) "Temperature_Anomaly_C"
      = some ty := by
    rw [offsetTable, getCol_setCol_ne _ _ _ _ (by decide),
      getCol_setCol_ne _ _ _ _ (by decide), getCol_setCol_ne _ _ _ _ (by decide)]
    exact hy
  have sel : selectCols (offsetTable B a b c c1 c2 c3)
      ["CO2_Concentration_ppm", "CH4_Concentration_ppb", "N2O_Concentration_ppb"]
      = .ok [c1.map (fun x => x + a), c2.map (fun x => x + b), c3.map (fun x => x + c)] := by
    simp [selectCols, p1, p2, p3]
  have eY : getColE (offsetTable B a b c c1 c2 c3) "Temperature_Anomaly_C" = .ok ty := by
    simp [getColE, py]
  have hlen : ty.length ≠ 0 := by
    simpa [List.length_eq_zero] using hn
  have fit : linearRegressionFitPredict
      [c1.map (fun x => x + a), c2.map (fun x => x + b), c3.map (fun x => x + c)] ty
      = .ok (lstsqFitted
          [c1.map (fun x => x + a), c2.map (fun x => x + b), c3.map (fun x => x + c)] ty) := by
    simp [linearRegressionFitPredict, hlen, List.length_map, l1, l2, l3]
  simp only [generate_scenario, hr, e1, e2, e3, getObj_append_self, sel, eY, fit,
    setObj_append_self, scenarioOut]


/-! Column access on the offset and scenario tables. -/

theorem getCol_offsetTable_co2 (B : DataFrame) (a b c : ℚ) (c1 c2 c3 : Col) :
    getCol (offsetTable B a b c c1 c2 c3) "CO2_Concentration_ppm"
      = some (c1.map (fun x => x + a)) := by
  rw [offsetTable, getCol_setCol_ne _ _ _ _ (by decide),
    getCol_setCol_ne _ _ _ _ (by decide)]
  exact getCol_setCol_self _ _ _

theorem getCol_offsetTable_ch4 (B : DataFrame) (a b c : ℚ) (c1 c2 c3 : Col) :
    getCol (offsetTable B a b c c1 c2 c3) "CH4_Concentration_ppb"
      = some (c2.map (fun x => x + b)) := by
  rw [offsetTable, getCol_setCol_ne _ _ _ _ (by decide)]
  exact getCol_setCol_self _ _ _

theorem getCol_offsetTable_n2o (B : DataFrame) (a b c : ℚ) (c1 c2 c3 : Col) :
    getCol (offsetTable B a b c c1 c2 c3) "N2O_Concentration_ppb"
      = some (c3.map (fun x => x + c)) :=
  getCol_setCol_self _ _ _

theorem getCol_offsetTable_other (B : DataFrame) (a b c : ℚ) (c1 c2 c3 : Col)
    (name : String)
    (hne1 : name ≠ "CO2_Concentration_ppm") (hne2 : name ≠ "CH4_Concentration_ppb")
    (hne3 : name ≠ "N2O_Concentration_ppb") :
    getCol (offsetTable B a b c c1 c2 c3) name = getCol B name := by
  rw [offsetTable, getCol_setCol_ne _ _ _ _ hne3, getCol_setCol_ne _ _ _ _ hne2,
    getCol_setCol_ne _ _ _ _ hne1]

theorem getCol_scenarioOut_pred (B : DataFrame) (a b c : ℚ) (c1 c2 c3 ty : Col) :
    getCol (scenarioOut B a b c c1 c2 c3 ty) "Predicted_Temperature_Anomaly_C"
      = some (lstsqFitted
          [c1.map (fun x => x + a), c2.map (fun x => x + b), c3.map (fun x => x + c)] ty) := by
  rw [scenarioOut]
  exact getCol_setCol_self _ _ _

theorem getCol_scenarioOut_co2 (B : DataFrame) (a b c : ℚ) (c1 c2 c3 ty : Col) :
    getCol (scenarioOut B a b c c1 c2 c3 ty) "CO2_Concentration_ppm"
      = some (c1.map (fun x => x + a)) := by
  rw [scenarioOut, getCol_setCol_ne _ _ _ _ (by decide)]
  exact getCol_offsetTable_co2 B a b c c1 c2 c3

theorem getCol_scenarioOut_ch4 (B : DataFrame) (a b c : ℚ) (c1 c2 c3 ty : Col) :
    getCol (scenarioOut B a b c c1 c2 c3 ty) "CH4_Concentration_ppb"
      = some (c2.map (fun x => x + b)) := by
  rw [scenarioOut, getCol_setCol_ne _ _ _ _ (by decide)]
  exact getCol_offsetTable_ch4 B a b c c1 c2 c3

theorem getCol_scenarioOut_n2o (B : DataFrame) (a b c : ℚ) (c1 c2 c3 ty : Col) :
    getCol (scenarioOut B a b c c1 c2 c3 ty) "N2O_Concentration_ppb"
      = some (c3.map (fun x => x + c)) := by
  rw [scenarioOut, getCol_setCol_ne _ _ _ _ (by decide)]
  exact getCol_offsetTable_n2o B a b c c1 c2 c3

theorem getCol_scenarioOut_other (B : DataFrame) (a b c : ℚ) (c1 c2 c3 ty : Col)
    (name : String)
    (hne1 : name ≠ "CO2_Concentration_ppm") (hne2 : name ≠ "CH4_Concentration_ppb")
    (hne3 : name ≠ "N2O_Concentration_ppb")
    (hnep : name ≠ "Predicted_Temperature_Anomaly_C") :
    getCol (scenarioOut B a b c c1 c2 c3 ty) name = getCol B name := by
  rw [scenarioOut, getCol_setCol_ne _ _ _ _ hnep]
  exact getCol_offsetTable_other B a b c c1 c2 c3 name hne1 hne2 hne3

theorem getCol_scenarioOut_anomaly (B : DataFrame) (a b c : ℚ) (c1 c2 c3 ty : Col) :
    getCol (scenarioOut B a b c c1 c2 c3 ty) "Temperature_Anomaly_C"
      = getCol B "Temperature_Anomaly_C" :=
  getCol_scenarioOut_other B a b c c1 c2 c3 ty _ (by decide) (by decide) (by decide)
    (by decide)

/-! Column-name bookkeeping for the output table. -/

theorem offsetTable_cols_names (B : DataFrame) (a b c : ℚ) (c1 c2 c3 : Col)
    (h1 : getCol B "CO2_Concentration_ppm" = some c1)
    (h2 : getCol B "CH4_Concentration_ppb" = some c2)
    (h3 : getCol B "N2O_Concentration_ppb" = some c3) :
    (offsetTable B a b c c1 c2 c3).cols.map Prod.fst = B.cols.map Prod.fst := by
  have m1 : (setCol B "CO2_Concentration_ppm" (c1.map (fun x => x + a))).cols.map Prod.fst
      = B.cols.map Prod.fst :=
    setColList_map_fst_of_found _ _ _ _ h1
  have g2 : getCol (setCol B "CO2_Concentration_ppm" (c1.map (fun x => x + a)))
      "CH4_Concentration_ppb" = some c2 := by
    rw [getCol_setCol_ne _ _ _ _ (by decide)]; exact h2
  have m2 : (setCol (setCol B "CO2_Concentration_ppm" (c1.map (fun x => x + a)))
      "CH4_Concentration_ppb" (c2.map (fun x => x + b))).cols.map Prod.fst
      = B.cols.map Prod.fst := by
    rw [setCol, setColList_map_fst_of_found _ _ _ _ g2]
    exact m1
  have g3 : getCol (setCol (setCol B "CO2_Concentration_ppm" (c1.map (fun x => x + a)))
      "CH4_Concentration_ppb" (c2.map (fun x => x + b))) "N2O_Concentration_ppb"
      = some c3 := by
    rw [getCol_setCol_ne _ _ _ _ (by decide), getCol_setCol_ne _ _ _ _ (by decide)]
    exact h3
  rw [offsetTable, setCol, setColList_map_fst_of_found _ _ _ _ g3]
  exact m2

theorem scenarioOut_cols_names_absent (B : DataFrame) (a b c : ℚ) (c1 c2 c3 ty : Col)
    (h1 : getCol B "CO2_Concentration_ppm" = some c1)
    (h2 : getCol B "CH4_Concentration_ppb" = some c2)
    (h3 : getCol B "N2O_Concentration_ppb" = some c3)
    (hnp : getCol B "Predicted_Temperature_Anomaly_C" = none) :
    (scenarioOut B a b c c1 c2 c3 ty).cols.map Prod.fst
      = B.cols.map Prod.fst ++ ["Predicted_Temperature_Anomaly_C"] := by
  have hop : getCol (offsetTable B a b c c1 c2 c3) "Predicted_Temperature_Anomaly_C"
      = none := by
    rw [getCol_offsetTable_other _ _ _ _ _ _ _ _ (by decide) (by decide) (by decide)]
    exact hnp
  rw [scenarioOut, setCol, setColList_map_fst_of_none _ _ _ hop,
    offsetTable_cols_names B a b c c1 c2 c3 h1 h2 h3]

theorem scenarioOut_cols_names_present (B : DataFrame) (a b c : ℚ) (c1 c2 c3 ty p0 : Col)
    (h1 : getCol B "CO2_Concentration_ppm" = some c1)
    (h2 : getCol B "CH4_Concentration_ppb" = some c2)
    (h3 : getCol B "N2O_Concentration_ppb" = some c3)
    (hp : getCol B "Predicted_Temperature_Anomaly_C" = some p0) :
    (scenarioOut B a b c c1 c2 c3 ty).cols.map Prod.fst = B.cols.map Prod.fst := by
  have hop : getCol (offsetTable B a b c c1 c2 c3) "Predicted_Temperature_Anomaly_C"
      = some p0 := by
    rw [getCol_offsetTable_other _ _ _ _ _ _ _ _ (by decide) (by decide) (by decide)]
    exact hp
  rw [scenarioOut, setCol, setColList_map_fst_of_found _ _ _ _ hop,
    offsetTable_cols_names B a b c c1 c2 c3 h1 h2 h3]

theorem scenarioOut_col_lengths (B : DataFrame) (a b c : ℚ) (c1 c2 c3 ty : Col)
    (l1 : c1.length = ty.length) (l2 : c2.length = ty.length)
    (l3 : c3.length = ty.length)
    (hwf : ∀ p ∈ B.cols, p.2.length = ty.length) :
    ∀ p ∈ (scenarioOut B a b c c1 c2 c3 ty).cols, p.2.length = ty.length := by
  intro p hp
  rw [scenarioOut, setCol] at hp
  rcases mem_setColList _ _ _ _ hp with h | h
  · subst h
    refine lstsqFitted_length _ ty ?_
    intro v hv
    simp only [List.mem_cons, List.not_mem_nil, or_false] at hv
    rcases hv with h | h | h <;> subst h <;>
      simp [List.length_map, l1, l2, l3]
  · rw [offsetTable, setCol] at h
    rcases mem_setColList _ _ _ _ h with h' | h'
    · subst h'; simp [List.length_map, l3]
    · rw [setCol] at h'
      rcases mem_setColList _ _ _ _ h' with h'' | h''
      · subst h''; simp [List.length_map, l2]
      · rw [setCol] at h''
        rcases mem_setColList _ _ _ _ h'' with h3' | h3'
        · subst h3'; simp [List.length_map, l1]
        · exact hwf p h3'

/-! Error paths of generate_scenario. -/

theorem generate_scenario_err_co2 (s : Store) (r : Nat) (B : DataFrame) (a b c : ℚ)
    (hr : getObj s r = B)
    (h1 : getCol B "CO2_Concentration_ppm" = none) :
    generate_scenario s r a b c = .error (.keyError "CO2_Concentration_ppm") := by
  simp only [generate_scenario, hr, augAssign_append, h1]

theorem generate_scenario_err_ch4 (s : Store) (r : Nat) (B : DataFrame) (a b c : ℚ)
    (c1 : Col) (hr : getObj s r = B)
    (h1 : getCol B "CO2_Concentration_ppm" = some c1)
    (h2 : getCol B "CH4_Concentration_ppb" = none) :
    generate_scenario s r a b c = .error (.keyError "CH4_Concentration_ppb") := by
  have g2 : getCol (setCol B "CO2_Concentration_ppm" (c1.map (fun x => x + a)))
      "CH4_Concentration_ppb" = none := by
    rw [getCol_setCol_ne _ _ _ _ (by decide)]; exact h2
  simp only [generate_scenario, hr, augAssign_append, h1, g2]

theorem generate_scenario_err_n2o (s : Store) (r : Nat) (B : DataFrame) (a b c : ℚ)
    (c1 c2 : Col) (hr : getObj s r = B)
    (h1 : getCol B "CO2_Concentration_ppm" = some c1)
    (h2 : getCol B "CH4_Concentration_ppb" = some c2)
    (h3 : getCol B "N2O_Concentration_ppb" = none) :
    generate_scenario s r a b c = .error (.keyError "N2O_Concentration_ppb") := by
  have g2 : getCol (setCol B "CO2_Concentration_ppm" (c1.map (fun x => x + a)))
      "CH4_Concentration_ppb" = some c2 := by
    rw [getCol_setCol_ne _ _ _ _ (by decide)]; exact h2
  have g3 : getCol (setCol (setCol B "CO2_Concentration_ppm" (c1.map (fun x => x + a)))
      "CH4_Concentration_ppb" (c2.map (fun x => x + b))) "N2O_Concentration_ppb"
      = none := by
    rw [getCol_setCol_ne _ _ _ _ (by decide), getCol_setCol_ne _ _ _ _ (by decide)]
    exact h3
  simp only [generate_scenario, hr, augAssign_append, h1, g2, g3]

theorem generate_scenario_err_anomaly (s : Store) (r : Nat) (B : DataFrame) (a b c : ℚ)
    (c1 c2 c3 : Col) (hr : getObj s r = B)
    (h1 : getCol B "CO2_Concentration_ppm" = some c1)
    (h2 : getCol B "CH4_Concentration_ppb" = some c2)
    (h3 : getCol B "N2O_Concentration_ppb" = some c3)
    (hy : getCol B "Temperature_Anomaly_C" = none) :
    generate_scenario s r a b c = .error (.keyError "Temperature_Anomaly_C") := by
  have g2 : getCol (setCol B "CO2_Concentration_ppm" (c1.map (fun x => x + a)))
      "CH4_Concentration_ppb" = some c2 := by
    rw [getCol_setCol_ne _ _ _ _ (by decide)]; exact h2
  have g3 : getCol (setCol (setCol B "CO2_Concentration_ppm" (c1.map (fun x => x + a)))
      "CH4_Concentration_ppb" (c2.map (fun x => x + b))) "N2O_Concentration_ppb"
      = some c3 := by
    rw [getCol_setCol_ne _ _ _ _ (by decide), getCol_setCol_ne _ _ _ _ (by decide)]
    exact h3
  have sel : selectCols (offsetTable B a b c c1 c2 c3)
      ["CO2_Concentration_ppm", "CH4_Concentration_ppb", "N2O_Concentration_ppb"]
      = .ok [c1.map (fun x => x + a), c2.map (fun x => x + b), c3.map (fun x => x + c)] := by
    simp [selectCols, getCol_offsetTable_co2, getCol_offsetTable_ch4, getCol_offsetTable_n2o]
  have eY : getColE (offsetTable B a b c c1 c2 c3) "Temperature_Anomaly_C"
      = .error (.keyError "Temperature_Anomaly_C") := by
    rw [getColE, getCol_offsetTable_other _ _ _ _ _ _ _ _ (by decide) (by decide) (by decide),
      hy]
  have fold : setCol (setCol (setCol B "CO2_Concentration_ppm"
        (c1.map (fun x => x + a))) "CH4_Concentration_ppb" (c2.map (fun x => x + b)))
      "N2O_Concentration_ppb" (c3.map (fun x => x + c)) = offsetTable B a b c c1 c2 c3 := rfl
  simp only [generate_scenario, hr, augAssign_append, h1, g2, g3, fold,
    getObj_append_self, sel, eY]

theorem lt_length_of_getElem (s : Store) (r : Nat) (B : DataFrame)
    (h : s[r]? = some B) : r < s.length := by
  by_contra h'
  rw [List.getElem?_eq_none (Nat.le_of_not_lt h')] at h
  cases h

/-- With the four required columns present, generate_scenario reduces to the
fit step on the offset design matrix. -/
theorem generate_scenario_eq_fit_stage (s : Store) (r : Nat) (B : DataFrame)
    (a b c : ℚ) (c1 c2 c3 ty : Col)
    (hr : getObj s r = B)
    (h1 : getCol B "CO2_Concentration_ppm" = some c1)
    (h2 : getCol B "CH4_Concentration_ppb" = some c2)
    (h3 : getCol B "N2O_Concentration_ppb" = some c3)
    (hy : getCol B "Temperature_Anomaly_C" = some ty) :
    generate_scenario s r a b c =
      match linearRegressionFitPredict
          [c1.map (fun x => x + a), c2.map (fun x => x + b), c3.map (fun x => x + c)] ty with
      | .error e => .error e
      | .ok preds =>
        .ok (s ++ [setCol (offsetTable B a b c c1 c2 c3)
              "Predicted_Temperature_Anomaly_C" preds], s.length) := by
  have g2 : getCol (setCol B "CO2_Concentration_ppm" (c1.map (fun x => x + a)))
      "CH4_Concentration_ppb" = some c2 := by
    rw [getCol_setCol_ne _ _ _ _ (by decide)]; exact h2
  have g3' : getCol (setCol (setCol B "CO2_Concentration_ppm" (c1.map (fun x => x + a)))
      "CH4_Concentration_ppb" (c2.map (fun x => x + b))) "N2O_Concentration_ppb"
      = some c3 := by
    rw [getCol_setCol_ne _ _ _ _ (by decide), getCol_setCol_ne _ _ _ _ (by decide)]
    exact h3
  have sel : selectCols (offsetTable B a b c c1 c2 c3)
      ["CO2_Concentration_ppm", "CH4_Concentration_ppb", "N2O_Concentration_ppb"]
      = .ok [c1.map (fun x => x + a), c2.map (fun x => x + b), c3.map (fun x => x + c)] := by
    simp [selectCols, getCol_offsetTable_co2, getCol_offsetTable_ch4, getCol_offsetTable_n2o]
  have eY : getColE (offsetTable B a b c c1 c2 c3) "Temperature_Anomaly_C" = .ok ty := by
    rw [getColE, getCol_offsetTable_other _ _ _ _ _ _ _ _ (by decide) (by decide) (by decide),
      hy]
  have fold : setCol (setCol (setCol B "CO2_Concentration_ppm"
        (c1.map (fun x => x + a))) "CH4_Concentration_ppb" (c2.map (fun x => x + b)))
      "N2O_Concentration_ppb" (c3.map (fun x => x + c)) = offsetTable B a b c c1 c2 c3 := rfl
  simp only [generate_scenario, hr, augAssign_append, h1, g2, g3', fold,
    getObj_append_self, sel, eY, setObj_append_self]

/-- Every successful run extends the store by exactly one fresh object and
returns the reference to it. -/
theorem generate_scenario_ok_shape (s : Store) (r : Nat) (a b c : ℚ)
    (s' : Store) (r' : Nat)
    (hok : generate_scenario s r a b c = .ok (s', r')) :
    ∃ d, s' = s ++ [d] ∧ r' = s.length := by
  cases h1 : getCol (getObj s r) "CO2_Concentration_ppm" with
  | none =>
    rw [generate_scenario_err_co2 s r (getObj s r) a b c rfl h1] at hok
    cases hok
  | some c1 =>
  cases h2 : getCol (getObj s r) "CH4_Concentration_ppb" with
  | none =>
    rw [generate_scenario_err_ch4 s r (getObj s r) a b c c1 rfl h1 h2] at hok
    cases hok
  | some c2 =>
  cases h3 : getCol (getObj s r) "N2O_Concentration_ppb" with
  | none =>
    rw [generate_scenario_err_n2o s r (getObj s r) a b c c1 c2 rfl h1 h2 h3] at hok
    cases hok
  | some c3 =>
  cases hy : getCol (getObj s r) "Temperature_Anomaly_C" with
  | none =>
    rw [generate_scenario_err_anomaly s r (getObj s r) a b c c1 c2 c3 rfl h1 h2 h3 hy] at hok
    cases hok
  | some ty =>
  rw [generate_scenario_eq_fit_stage s r (getObj s r) a b c c1 c2 c3 ty rfl h1 h2 h3 hy] at hok
  cases hfit : linearRegressionFitPredict
      [c1.map (fun x => x + a), c2.map (fun x => x + b), c3.map (fun x => x + c)] ty with
  | error e => rw [hfit] at hok; cases hok
  | ok preds =>
    rw [hfit] at hok
    refine ⟨setCol (offsetTable (getObj s r) a b c c1 c2 c3)
      "Predicted_Temperature_Anomaly_C" preds, ?_, ?_⟩
    · exact (congrArg Prod.fst (Except.ok.inj hok)).symm
    · exact (congrArg Prod.snd (Except.ok.inj hok)).symm

/-! The claims. -/

/-- C1: for every baseline with the three concentration columns and the
anomaly column, generate_scenario fits the least-squares regression with the
three offset concentration columns as independent variables and the original
(un-offset) Temperature_Anomaly_C column as dependent variable, refit fresh on
the offset data of this very call, and stores the fitted values for those
offset rows in the Predicted_Temperature_Anomaly_C column of the returned
table. -/
theorem generate_scenario_fits_offset_regression
    (s : Store) (r : Nat) (B : DataFrame) (a b c : ℚ) (c1 c2 c3 ty : Col)
    (hr : getObj s r = B)
    (h1 : getCol B "CO2_Concentration_ppm" = some c1)
    (h2 : getCol B "CH4_Concentration_ppb" = some c2)
    (h3 : getCol B "N2O_Concentration_ppb" = some c3)
    (hy : getCol B "Temperature_Anomaly_C" = some ty)
    (l1 : c1.length = ty.length) (l2 : c2.length = ty.length)
    (l3 : c3.length = ty.length) (hn : ty ≠ []) :
    ∃ s' r', generate_scenario s r a b c = .ok (s', r') ∧
      getCol (getObj s' r') "Predicted_Temperature_Anomaly_C"
        = some (lstsqFitted
            [c1.map (fun x => x + a), c2.map (fun x => x + b), c3.map (fun x => x + c)]
            ty) := by
  refine ⟨_, _,
    generate_scenario_eq_of_cols s r B a b c c1 c2 c3 ty hr h1 h2 h3 hy l1 l2 l3 hn, ?_⟩
  rw [getObj_append_self]
  exact getCol_scenarioOut_pred B a b c c1 c2 c3 ty

/-- Witness for C1: the two-row example baseline with offsets (5, 0, 0). -/
theorem generate_scenario_fits_offset_regression_witness :
    getObj [exampleBaseline] 0 = exampleBaseline ∧
    getCol exampleBaseline "CO2_Concentration_ppm" = some [400, 402] ∧
    getCol exampleBaseline "CH4_Concentration_ppb" = some [1800, 1805] ∧
    getCol exampleBaseline "N2O_Concentration_ppb" = some [330, 331] ∧
    getCol exampleBaseline "Temperature_Anomaly_C" = some [11/10, 23/20] ∧
    ([400, 402] : Col).length = ([11/10, 23/20] : Col).length ∧
    ([11/10, 23/20] : Col) ≠ [] ∧
    (∃ s' r', generate_scenario [exampleBaseline] 0 5 0 0 = .ok (s', r') ∧
      getCol (getObj s' r') "Predicted_Temperature_Anomaly_C"
        = some (lstsqFitted [([400, 402] : Col).map (fun x => x + 5),
            ([1800, 1805] : Col).map (fun x => x + 0),
            ([330, 331] : Col).map (fun x => x + 0)] [11/10, 23/20])) :=
  ⟨rfl, rfl, rfl, rfl, rfl, rfl, by simp,
    generate_scenario_fits_offset_regression [exampleBaseline] 0 exampleBaseline 5 0 0
      [400, 402] [1800, 1805] [330, 331] [11/10, 23/20]
      rfl rfl rfl rfl rfl rfl rfl rfl (by simp)⟩

/-- C2: the returned table's concentration columns are the input's with the
respective offset added to every value element-wise, and the anomaly column
is returned unchanged. -/
theorem generate_scenario_adds_offsets_elementwise
    (s : Store) (r : Nat) (B : DataFrame) (a b c : ℚ) (c1 c2 c3 ty : Col)
    (hr : getObj s r = B)
    (h1 : getCol B "CO2_Concentration_ppm" = some c1)
    (h2 : getCol B "CH4_Concentration_ppb" = some c2)
    (h3 : getCol B "N2O_Concentration_ppb" = some c3)
    (hy : getCol B "Temperature_Anomaly_C" = some ty)
    (l1 : c1.length = ty.length) (l2 : c2.length = ty.length)
    (l3 : c3.length = ty.length) (hn : ty ≠ []) :
    ∃ s' r', generate_scenario s r a b c = .ok (s', r') ∧
      getCol (getObj s' r') "CO2_Concentration_ppm" = some (c1.map (fun x => x + a)) ∧
      getCol (getObj s' r') "CH4_Concentration_ppb" = some (c2.map (fun x => x + b)) ∧
      getCol (getObj s' r') "N2O_Concentration_ppb" = some (c3.map (fun x => x + c)) ∧
      getCol (getObj s' r') "Temperature_Anomaly_C" = some ty := by
  refine ⟨_, _,
    generate_scenario_eq_of_cols s r B a b c c1 c2 c3 ty hr h1 h2 h3 hy l1 l2 l3 hn,
    ?_, ?_, ?_, ?_⟩
  · rw [getObj_append_self]; exact getCol_scenarioOut_co2 B a b c c1 c2 c3 ty
  · rw [getObj_append_self]; exact getCol_scenarioOut_ch4 B a b c c1 c2 c3 ty
  · rw [getObj_append_self]; exact getCol_scenarioOut_n2o B a b c c1 c2 c3 ty
  · rw [getObj_append_self, getCol_scenarioOut_anomaly]; exact hy

/-- Witness for C2: the spec's two-row example, co2_offset 5, zero CH4/N2O
offsets; the CO2 column becomes 405 and 407. -/
theorem generate_scenario_adds_offsets_elementwise_witness :
    getObj [exampleBaseline] 0 = exampleBaseline ∧
    getCol exampleBaseline "CO2_Concentration_ppm" = some [400, 402] ∧
    getCol exampleBaseline "Temperature_Anomaly_C" = some [11/10, 23/20] ∧
    ([11/10, 23/20] : Col) ≠ [] ∧
    (∃ s' r', generate_scenario [exampleBaseline] 0 5 0 0 = .ok (s', r') ∧
      getCol (getObj s' r') "CO2_Concentration_ppm"
        = some (([400, 402] : Col).map (fun x => x + 5)) ∧
      getCol (getObj s' r') "CH4_Concentration_ppb"
        = some (([1800, 1805] : Col).map (fun x => x + 0)) ∧
      getCol (getObj s' r') "N2O_Concentration_ppb"
        = some (([330, 331] : Col).map (fun x => x + 0)) ∧
      getCol (getObj s' r') "Temperature_Anomaly_C" = some [11/10, 23/20]) ∧
    ([400, 402] : Col).map (fun x => x + 5) = [405, 407] ∧
    ([1800, 1805] : Col).map (fun x => x + 0) = [1800, 1805] ∧
    ([330, 331] : Col).map (fun x => x + 0) = [330, 331] :=
  ⟨rfl, rfl, rfl, by simp,
    generate_scenario_adds_offsets_elementwise [exampleBaseline] 0 exampleBaseline 5 0 0
      [400, 402] [1800, 1805] [330, 331] [11/10, 23/20]
      rfl rfl rfl rfl rfl rfl rfl rfl (by simp),
    by norm_num, by norm_num, by norm_num⟩

/-- C3: generate_scenario operates on a copy; after a successful call the
baseline object at the input reference, and every other pre-existing object,
is unchanged in the returned store, so repeated scenario runs from the same
baseline are independent. -/
theorem generate_scenario_preserves_baseline
    (s : Store) (r : Nat) (B : DataFrame) (a b c : ℚ) (s' : Store) (r' : Nat)
    (hr : s[r]? = some B)
    (hok : generate_scenario s r a b c = .ok (s', r')) :
    s'[r]? = some B ∧ ∀ i, i < s.length → s'[i]? = s[i]? := by
  obtain ⟨d, hs, _⟩ := generate_scenario_ok_shape s r a b c s' r' hok
  subst hs
  refine ⟨?_, ?_⟩
  · rw [getElem_append_left_of_lt _ _ _ (lt_length_of_getElem s r B hr)]
    exact hr
  · intro i hi
    exact getElem_append_left_of_lt _ _ _ hi

/-- Witness for C3 on the two-row example baseline with offsets (1, 2, 3). -/
theorem generate_scenario_preserves_baseline_witness :
    ([exampleBaseline] : Store)[0]? = some exampleBaseline ∧
    generate_scenario [exampleBaseline] 0 1 2 3
      = .ok ([exampleBaseline,
          scenarioOut exampleBaseline 1 2 3 [400, 402] [1800, 1805] [330, 331]
            [11/10, 23/20]], 1) ∧
    (([exampleBaseline,
        scenarioOut exampleBaseline 1 2 3 [400, 402] [1800, 1805] [330, 331]
          [11/10, 23/20]] : Store)[0]? = some exampleBaseline ∧
      ∀ i, i < ([exampleBaseline] : Store).length →
        ([exampleBaseline,
          scenarioOut exampleBaseline 1 2 3 [400, 402] [1800, 1805] [330, 331]
            [11/10, 23/20]] : Store)[i]? = ([exampleBaseline] : Store)[i]?) := by
  have hok :=
    generate_scenario_eq_of_cols [exampleBaseline] 0 exampleBaseline 1 2 3
      [400, 402] [1800, 1805] [330, 331] [11/10, 23/20]
      rfl rfl rfl rfl rfl rfl rfl rfl (by simp)
  exact ⟨rfl, hok,
    generate_scenario_preserves_baseline [exampleBaseline] 0 exampleBaseline 1 2 3 _ _
      rfl hok⟩

/-- C6: with zero offsets the returned table reproduces the baseline's three
concentration columns exactly, and its predicted column equals the fitted
values of the least-squares regression of the anomaly on the baseline's own
un-offset concentration columns. -/
theorem generate_scenario_zero_offset_identity
    (s : Store) (r : Nat) (B : DataFrame) (c1 c2 c3 ty : Col)
    (hr : getObj s r = B)
    (h1 : getCol B "CO2_Concentration_ppm" = some c1)
    (h2 : getCol B "CH4_Concentration_ppb" = some c2)
    (h3 : getCol B "N2O_Concentration_ppb" = some c3)
    (hy : getCol B "Temperature_Anomaly_C" = some ty)
    (l1 : c1.length = ty.length) (l2 : c2.length = ty.length)
    (l3 : c3.length = ty.length) (hn : ty ≠ []) :
    ∃ s' r', generate_scenario s r 0 0 0 = .ok (s', r') ∧
      getCol (getObj s' r') "CO2_Concentration_ppm" = some c1 ∧
      getCol (getObj s' r') "CH4_Concentration_ppb" = some c2 ∧
      getCol (getObj s' r') "N2O_Concentration_ppb" = some c3 ∧
      getCol (getObj s' r') "Predicted_Temperature_Anomaly_C"
        = some (lstsqFitted [c1, c2, c3] ty) := by
  have hmap : ∀ l : Col, l.map (fun x => x + (0:ℚ)) = l := by intro l; simp
  refine ⟨_, _,
    generate_scenario_eq_of_cols s r B 0 0 0 c1 c2 c3 ty hr h1 h2 h3 hy l1 l2 l3 hn,
    ?_, ?_, ?_, ?_⟩
  · rw [getObj_append_self, getCol_scenarioOut_co2, hmap]
  · rw [getObj_append_self, getCol_scenarioOut_ch4, hmap]
  · rw [getObj_append_self, getCol_scenarioOut_n2o, hmap]
  · rw [getObj_append_self, getCol_scenarioOut_pred]
    simp only [hmap]

/-- Witness for C6 on the two-row example baseline. -/
theorem generate_scenario_zero_offset_identity_witness :
    getObj [exampleBaseline] 0 = exampleBaseline ∧
    getCol exampleBaseline "CO2_Concentration_ppm" = some [400, 402] ∧
    ([11/10, 23/20] : Col) ≠ [] ∧
    (∃ s' r', generate_scenario [exampleBaseline] 0 0 0 0 = .ok (s', r') ∧
      getCol (getObj s' r') "CO2_Concentration_ppm" = some [400, 402] ∧
      getCol (getObj s' r') "CH4_Concentration_ppb" = some [1800, 1805] ∧
      getCol (getObj s' r') "N2O_Concentration_ppb" = some [330, 331] ∧
      getCol (getObj s' r') "Predicted_Temperature_Anomaly_C"
        = some (lstsqFitted [[400, 402], [1800, 1805], [330, 331]] [11/10, 23/20])) :=
  ⟨rfl, rfl, by simp,
    generate_scenario_zero_offset_identity [exampleBaseline] 0 exampleBaseline
      [400, 402] [1800, 1805] [330, 331] [11/10, 23/20]
      rfl rfl rfl rfl rfl rfl rfl rfl (by simp)⟩

/-- C8: generate_scenario is deterministic: a second call with the same
baseline reference and the same three offsets, run on the store the first
call returned, yields an output table identical to the first call's output
table. -/
theorem generate_scenario_deterministic
    (s : Store) (r : Nat) (B : DataFrame) (a b c : ℚ) (c1 c2 c3 ty : Col)
    (hr : s[r]? = some B)
    (h1 : getCol B "CO2_Concentration_ppm" = some c1)
    (h2 : getCol B "CH4_Concentration_ppb" = some c2)
    (h3 : getCol B "N2O_Concentration_ppb" = some c3)
    (hy : getCol B "Temperature_Anomaly_C" = some ty)
    (l1 : c1.length = ty.length) (l2 : c2.length = ty.length)
    (l3 : c3.length = ty.length) (hn : ty ≠ []) :
    ∃ s1 r1 s2 r2, generate_scenario s r a b c = .ok (s1, r1) ∧
      generate_scenario s1 r a b c = .ok (s2, r2) ∧
      getObj s2 r2 = getObj s1 r1 := by
  have hgo : getObj s r = B := by simp [getObj, hr]
  have hlt : r < s.length := lt_length_of_getElem s r B hr
  have hgo2 : getObj (s ++ [scenarioOut B a b c c1 c2 c3 ty]) r = B := by
    simp [getObj, getElem_append_left_of_lt _ _ _ hlt, hr]
  refine ⟨_, _, _, _,
    generate_scenario_eq_of_cols s r B a b c c1 c2 c3 ty hgo h1 h2 h3 hy l1 l2 l3 hn,
    generate_scenario_eq_of_cols (s ++ [scenarioOut B a b c c1 c2 c3 ty]) r B a b c
      c1 c2 c3 ty hgo2 h1 h2 h3 hy l1 l2 l3 hn, ?_⟩
  rw [getObj_append_self, getObj_append_self]

/-- Witness for C8 on the two-row example baseline with offsets (5, 0, 0). -/
theorem generate_scenario_deterministic_witness :
    ([exampleBaseline] : Store)[0]? = some exampleBaseline ∧
    getCol exampleBaseline "CO2_Concentration_ppm" = some [400, 402] ∧
    ([11/10, 23/20] : Col) ≠ [] ∧
    (∃ s1 r1 s2 r2, generate_scenario [exampleBaseline] 0 5 0 0 = .ok (s1, r1) ∧
      generate_scenario s1 0 5 0 0 = .ok (s2, r2) ∧
      getObj s2 r2 = getObj s1 r1) :=
  ⟨rfl, rfl, by simp,
    generate_scenario_deterministic [exampleBaseline] 0 exampleBaseline 5 0 0
      [400, 402] [1800, 1805] [330, 331] [11/10, 23/20]
      rfl rfl rfl rfl rfl rfl rfl rfl (by simp)⟩

theorem map_add_add (l : Col) (a d : ℚ) :
    (l.map (fun x => x + a)).map (fun x => x + d) = l.map (fun x => x + (a + d)) := by
  simp [List.map_map, Function.comp, add_assoc]

/-- C7: chaining the scenario transform — running generate_scenario with
offsets (a, b, c) and then applying it with offsets (d, e, f) to the
already-offset output — agrees with the single call with offsets
(a+d, b+e, c+f) on the three concentration columns and on the
Predicted_Temperature_Anomaly_C column. -/
theorem generate_scenario_offset_chaining
    (s : Store) (r : Nat) (B : DataFrame) (a b c d e f : ℚ) (c1 c2 c3 ty : Col)
    (hr : getObj s r = B)
    (h1 : getCol B "CO2_Concentration_ppm" = some c1)
    (h2 : getCol B "CH4_Concentration_ppb" = some c2)
    (h3 : getCol B "N2O_Concentration_ppb" = some c3)
    (hy : getCol B "Temperature_Anomaly_C" = some ty)
    (l1 : c1.length = ty.length) (l2 : c2.length = ty.length)
    (l3 : c3.length = ty.length) (hn : ty ≠ []) :
    ∃ s1 r1 s2 r2 s3 r3,
      generate_scenario s r a b c = .ok (s1, r1) ∧
      generate_scenario s1 r1 d e f = .ok (s2, r2) ∧
      generate_scenario s r (a + d) (b + e) (c + f) = .ok (s3, r3) ∧
      getCol (getObj s2 r2) "CO2_Concentration_ppm"
        = getCol (getObj s3 r3) "CO2_Concentration_ppm" ∧
      getCol (getObj s2 r2) "CH4_Concentration_ppb"
        = getCol (getObj s3 r3) "CH4_Concentration_ppb" ∧
      getCol (getObj s2 r2) "N2O_Concentration_ppb"
        = getCol (getObj s3 r3) "N2O_Concentration_ppb" ∧
      getCol (getObj s2 r2) "Predicted_Temperature_Anomaly_C"
        = getCol (getObj s3 r3) "Predicted_Temperature_Anomaly_C" := by
  have hanom : getCol (scenarioOut B a b c c1 c2 c3 ty) "Temperature_Anomaly_C"
      = some ty := by
    rw [getCol_scenarioOut_anomaly]; exact hy
  refine ⟨_, _, _, _, _, _,
    generate_scenario_eq_of_cols s r B a b c c1 c2 c3 ty hr h1 h2 h3 hy l1 l2 l3 hn,
    generate_scenario_eq_of_cols (s ++ [scenarioOut B a b c c1 c2 c3 ty]) s.length
      (scenarioOut B a b c c1 c2 c3 ty) d e f
      (c1.map (fun x => x + a)) (c2.map (fun x => x + b)) (c3.map (fun x => x + c)) ty
      (getObj_append_self s _)
      (getCol_scenarioOut_co2 B a b c c1 c2 c3 ty)
      (getCol_scenarioOut_ch4 B a b c c1 c2 c3 ty)
      (getCol_scenarioOut_n2o B a b c c1 c2 c3 ty)
      hanom
      (by rw [List.length_map]; exact l1)
      (by rw [List.length_map]; exact l2)
      (by rw [List.length_map]; exact l3) hn,
    generate_scenario_eq_of_cols s r B (a + d) (b + e) (c + f) c1 c2 c3 ty
      hr h1 h2 h3 hy l1 l2 l3 hn,
    ?_, ?_, ?_, ?_⟩
  · rw [getObj_append_self, getObj_append_self, getCol_scenarioOut_co2,
      getCol_scenarioOut_co2, map_add_add]
  · rw [getObj_append_self, getObj_append_self, getCol_scenarioOut_ch4,
      getCol_scenarioOut_ch4, map_add_add]
  · rw [getObj_append_self, getObj_append_self, getCol_scenarioOut_n2o,
      getCol_scenarioOut_n2o, map_add_add]
  · rw [getObj_append_self, getObj_append_self, getCol_scenarioOut_pred,
      getCol_scenarioOut_pred, map_add_add, map_add_add, map_add_add]

/-- Witness for C7: the two-row example baseline, offsets (1, 2, 3) then
(4, 5, 6) against a single call with (5, 7, 9). -/
theorem generate_scenario_offset_chaining_witness :
    getObj [exampleBaseline] 0 = exampleBaseline ∧
    getCol exampleBaseline "CO2_Concentration_ppm" = some [400, 402] ∧
    ([11/10, 23/20] : Col) ≠ [] ∧
    (∃ s1 r1 s2 r2 s3 r3,
      generate_scenario [exampleBaseline] 0 1 2 3 = .ok (s1, r1) ∧
      generate_scenario s1 r1 4 5 6 = .ok (s2, r2) ∧
      generate_scenario [exampleBaseline] 0 (1 + 4) (2 + 5) (3 + 6) = .ok (s3, r3) ∧
      getCol (getObj s2 r2) "CO2_Concentration_ppm"
        = getCol (getObj s3 r3) "CO2_Concentration_ppm" ∧
      getCol (getObj s2 r2) "CH4_Concentration_ppb"
        = getCol (getObj s3 r3) "CH4_Concentration_ppb" ∧
      getCol (getObj s2 r2) "N2O_Concentration_ppb"
        = getCol (getObj s3 r3) "N2O_Concentration_ppb" ∧
      getCol (getObj s2 r2) "Predicted_Temperature_Anomaly_C"
        = getCol (getObj s3 r3) "Predicted_Temperature_Anomaly_C") :=
  ⟨rfl, rfl, by simp,
    generate_scenario_offset_chaining [exampleBaseline] 0 exampleBaseline 1 2 3 4 5 6
      [400, 402] [1800, 1805] [330, 331] [11/10, 23/20]
      rfl rfl rfl rfl rfl rfl rfl rfl (by simp)⟩

/-- C9: a baseline missing one of the three concentration columns or the
anomaly column makes generate_scenario fail with a KeyError naming a missing
required column; no augmented table is returned. -/
theorem generate_scenario_missing_column_key_error
    (s : Store) (r : Nat) (B : DataFrame) (a b c : ℚ)
    (hr : getObj s r = B)
    (hmiss : ∃ n, n ∈ ["CO2_Concentration_ppm", "CH4_Concentration_ppb",
        "N2O_Concentration_ppb", "Temperature_Anomaly_C"] ∧ getCol B n = none) :
    ∃ n, n ∈ ["CO2_Concentration_ppm", "CH4_Concentration_ppb",
        "N2O_Concentration_ppb", "Temperature_Anomaly_C"] ∧ getCol B n = none ∧
      generate_scenario s r a b c = .error (.keyError n) := by
  cases h1 : getCol B "CO2_Concentration_ppm" with
  | none =>
    exact ⟨_, by simp, h1, generate_scenario_err_co2 s r B a b c hr h1⟩
  | some c1 =>
  cases h2 : getCol B "CH4_Concentration_ppb" with
  | none =>
    exact ⟨_, by simp, h2, generate_scenario_err_ch4 s r B a b c c1 hr h1 h2⟩
  | some c2 =>
  cases h3 : getCol B "N2O_Concentration_ppb" with
  | none =>
    exact ⟨_, by simp, h3, generate_scenario_err_n2o s r B a b c c1 c2 hr h1 h2 h3⟩
  | some c3 =>
  cases hy : getCol B "Temperature_Anomaly_C" with
  | none =>
    exact ⟨_, by simp, hy, generate_scenario_err_anomaly s r B a b c c1 c2 c3 hr h1 h2 h3 hy⟩
  | some ty =>
  obtain ⟨n, hmem, hnone⟩ := hmiss
  simp only [List.mem_cons, List.not_mem_nil, or_false] at hmem
  rcases hmem with rfl | rfl | rfl | rfl
  · rw [h1] at hnone; cases hnone
  · rw [h2] at hnone; cases hnone
  · rw [h3] at hnone; cases hnone
  · rw [hy] at hnone; cases hnone

/-- Witness for C9: a one-row table holding only the anomaly column is
missing the CO2 column. -/
theorem generate_scenario_missing_column_key_error_witness :
    getObj [(⟨[("Temperature_Anomaly_C", [1])]⟩ : DataFrame)] 0
      = (⟨[("Temperature_Anomaly_C", [1])]⟩ : DataFrame) ∧
    (∃ n, n ∈ ["CO2_Concentration_ppm", "CH4_Concentration_ppb",
        "N2O_Concentration_ppb", "Temperature_Anomaly_C"] ∧
      getCol (⟨[("Temperature_Anomaly_C", [1])]⟩ : DataFrame) n = none) ∧
    (∃ n, n ∈ ["CO2_Concentration_ppm", "CH4_Concentration_ppb",
        "N2O_Concentration_ppb", "Temperature_Anomaly_C"] ∧
      getCol (⟨[("Temperature_Anomaly_C", [1])]⟩ : DataFrame) n = none ∧
      generate_scenario [(⟨[("Temperature_Anomaly_C", [1])]⟩ : DataFrame)] 0 1 1 1
        = .error (.keyError n)) :=
  ⟨rfl, ⟨"CO2_Concentration_ppm", by simp, rfl⟩,
    generate_scenario_missing_column_key_error
      [(⟨[("Temperature_Anomaly_C", [1])]⟩ : DataFrame)] 0
      (⟨[("Temperature_Anomaly_C", [1])]⟩ : DataFrame) 1 1 1 rfl
      ⟨"CO2_Concentration_ppm", by simp, rfl⟩⟩

/-- C10: when the input already holds a Predicted_Temperature_Anomaly_C
column, generate_scenario overwrites it in place with the freshly fitted
values, so the output has exactly the same column names, in the same order,
and the same column count as the input. -/
theorem generate_scenario_overwrites_predicted
    (s : Store) (r : Nat) (B : DataFrame) (a b c : ℚ) (c1 c2 c3 ty p0 : Col)
    (hr : getObj s r = B)
    (h1 : getCol B "CO2_Concentration_ppm" = some c1)
    (h2 : getCol B "CH4_Concentration_ppb" = some c2)
    (h3 : getCol B "N2O_Concentration_ppb" = some c3)
    (hy : getCol B "Temperature_Anomaly_C" = some ty)
    (hp : getCol B "Predicted_Temperature_Anomaly_C" = some p0)
    (l1 : c1.length = ty.length) (l2 : c2.length = ty.length)
    (l3 : c3.length = ty.length) (hn : ty ≠ []) :
    ∃ s' r', generate_scenario s r a b c = .ok (s', r') ∧
      (getObj s' r').cols.map Prod.fst = B.cols.map Prod.fst ∧
      (getObj s' r').cols.length = B.cols.length ∧
      getCol (getObj s' r') "Predicted_Temperature_Anomaly_C"
        = some (lstsqFitted
            [c1.map (fun x => x + a), c2.map (fun x => x + b), c3.map (fun x => x + c)]
            ty) := by
  have names := scenarioOut_cols_names_present B a b c c1 c2 c3 ty p0 h1 h2 h3 hp
  refine ⟨_, _,
    generate_scenario_eq_of_cols s r B a b c c1 c2 c3 ty hr h1 h2 h3 hy l1 l2 l3 hn,
    ?_, ?_, ?_⟩
  · rw [getObj_append_self]; exact names
  · rw [getObj_append_self]
    have := congrArg List.length names
    simpa using this
  · rw [getObj_append_self]; exact getCol_scenarioOut_pred B a b c c1 c2 c3 ty

/-- Witness for C10: the example baseline that already carries a predicted
column, with offsets (1, 0, 0). -/
theorem generate_scenario_overwrites_predicted_witness :
    getObj [examplePredicted] 0 = examplePredicted ∧
    getCol examplePredicted "Predicted_Temperature_Anomaly_C" = some [0, 0] ∧
    ([11/10, 23/20] : Col) ≠ [] ∧
    (∃ s' r', generate_scenario [examplePredicted] 0 1 0 0 = .ok (s', r') ∧
      (getObj s' r').cols.map Prod.fst = examplePredicted.cols.map Prod.fst ∧
      (getObj s' r').cols.length = examplePredicted.cols.length ∧
      getCol (getObj s' r') "Predicted_Temperature_Anomaly_C"
        = some (lstsqFitted [([400, 402] : Col).map (fun x => x + 1),
            ([1800, 1805] : Col).map (fun x => x + 0),
            ([330, 331] : Col).map (fun x => x + 0)] [11/10, 23/20])) :=
  ⟨rfl, rfl, by simp,
    generate_scenario_overwrites_predicted [examplePredicted] 0 examplePredicted 1 0 0
      [400, 402] [1800, 1805] [330, 331] [11/10, 23/20] [0, 0]
      rfl rfl rfl rfl rfl rfl rfl rfl rfl (by simp)⟩

/-- C5 counterexample: on a baseline that has the required columns but also
already contains a Predicted_Temperature_Anomaly_C column, the successful
call returns a table with the same column count as the input (6), not one
more, refuting the claim as stated. -/
theorem generate_scenario_column_count_cex :
    generate_scenario [examplePredicted] 0 1 1 1
      = .ok ([examplePredicted] ++ [scenarioOut examplePredicted 1 1 1
          [400, 402] [1800, 1805] [330, 331] [11/10, 23/20]], 1) ∧
    (scenarioOut examplePredicted 1 1 1
        [400, 402] [1800, 1805] [330, 331] [11/10, 23/20]).cols.length = 6 ∧
    examplePredicted.cols.length = 6 := by
  refine ⟨?_, ?_, rfl⟩
  · exact generate_scenario_eq_of_cols [examplePredicted] 0 examplePredicted 1 1 1
      [400, 402] [1800, 1805] [330, 331] [11/10, 23/20]
      rfl rfl rfl rfl rfl rfl rfl rfl (by simp)
  · have names := scenarioOut_cols_names_present examplePredicted 1 1 1
      [400, 402] [1800, 1805] [330, 331] [11/10, 23/20] [0, 0] rfl rfl rfl rfl
    have := congrArg List.length names
    simpa using this

/-- C5 amended: for every non-empty baseline with the required columns that
does not already contain a Predicted_Temperature_Anomaly_C column, the output
has exactly one more column than the input (the appended predicted column),
every column keeps the input row count, and every column other than the three
concentration columns and the predicted column — in particular Year, hence
the row order — is returned unchanged. -/
theorem generate_scenario_adds_one_column
    (s : Store) (r : Nat) (B : DataFrame) (a b c : ℚ) (c1 c2 c3 ty : Col)
    (hr : getObj s r = B)
    (h1 : getCol B "CO2_Concentration_ppm" = some c1)
    (h2 : getCol B "CH4_Concentration_ppb" = some c2)
    (h3 : getCol B "N2O_Concentration_ppb" = some c3)
    (hy : getCol B "Temperature_Anomaly_C" = some ty)
    (hnp : getCol B "Predicted_Temperature_Anomaly_C" = none)
    (l1 : c1.length = ty.length) (l2 : c2.length = ty.length)
    (l3 : c3.length = ty.length) (hn : ty ≠ [])
    (hwf : ∀ p ∈ B.cols, p.2.length = ty.length) :
    ∃ s' r', generate_scenario s r a b c = .ok (s', r') ∧
      (getObj s' r').cols.length = B.cols.length + 1 ∧
      (getObj s' r').cols.map Prod.fst
        = B.cols.map Prod.fst ++ ["Predicted_Temperature_Anomaly_C"] ∧
      (∀ p ∈ (getObj s' r').cols, p.2.length = ty.length) ∧
      (∀ name, name ≠ "CO2_Concentration_ppm" → name ≠ "CH4_Concentration_ppb" →
        name ≠ "N2O_Concentration_ppb" → name ≠ "Predicted_Temperature_Anomaly_C" →
        getCol (getObj s' r') name = getCol B name) := by
  have names := scenarioOut_cols_names_absent B a b c c1 c2 c3 ty h1 h2 h3 hnp
  refine ⟨_, _,
    generate_scenario_eq_of_cols s r B a b c c1 c2 c3 ty hr h1 h2 h3 hy l1 l2 l3 hn,
    ?_, ?_, ?_, ?_⟩
  · rw [getObj_append_self]
    have := congrArg List.length names
    simpa using this
  · rw [getObj_append_self]; exact names
  · rw [getObj_append_self]
    exact scenarioOut_col_lengths B a b c c1 c2 c3 ty l1 l2 l3 hwf
  · intro name hn1 hn2 hn3 hn4
    rw [getObj_append_self]
    exact getCol_scenarioOut_other B a b c c1 c2 c3 ty name hn1 hn2 hn3 hn4

/-- Witness for the amended C5 on the two-row example baseline with offsets
(1, 2, 3). -/
theorem generate_scenario_adds_one_column_witness :
    getObj [exampleBaseline] 0 = exampleBaseline ∧
    getCol exampleBaseline "Predicted_Temperature_Anomaly_C" = none ∧
    (∀ p ∈ exampleBaseline.cols, p.2.length = ([11/10, 23/20] : Col).length) ∧
    (∃ s' r', generate_scenario [exampleBaseline] 0 1 2 3 = .ok (s', r') ∧
      (getObj s' r').cols.length = exampleBaseline.cols.length + 1 ∧
      (getObj s' r').cols.map Prod.fst
        = exampleBaseline.cols.map Prod.fst ++ ["Predicted_Temperature_Anomaly_C"] ∧
      (∀ p ∈ (getObj s' r').cols, p.2.length = ([11/10, 23/20] : Col).length) ∧
      (∀ name, name ≠ "CO2_Concentration_ppm" → name ≠ "CH4_Concentration_ppb" →
        name ≠ "N2O_Concentration_ppb" → name ≠ "Predicted_Temperature_Anomaly_C" →
        getCol (getObj s' r') name = getCol exampleBaseline name)) :=
  ⟨rfl, rfl, by simp [exampleBaseline],
    generate_scenario_adds_one_column [exampleBaseline] 0 exampleBaseline 1 2 3
      [400, 402] [1800, 1805] [330, 331] [11/10, 23/20]
      rfl rfl rfl rfl rfl rfl rfl rfl rfl (by simp) (by simp [exampleBaseline])⟩

/-- C4 counterexample: on a baseline whose three concentration columns are
perfectly collinear (all constant), generate_scenario does not fail with any
numerical-singularity error; it returns a table whose predicted column holds
the finite least-squares projection values (here the mean of the anomaly),
not NaN or garbage. -/
theorem generate_scenario_collinear_no_error_cex :
    generate_scenario [collinearBaseline] 0 0 0 0
      = .ok ([collinearBaseline] ++ [scenarioOut collinearBaseline 0 0 0
          [1, 1] [1, 1] [1, 1] [3, 5]], 1) ∧
    getCol (scenarioOut collinearBaseline 0 0 0 [1, 1] [1, 1] [1, 1] [3, 5])
      "Predicted_Temperature_Anomaly_C" = some [4, 4] := by
  refine ⟨?_, ?_⟩
  · exact generate_scenario_eq_of_cols [collinearBaseline] 0 collinearBaseline 0 0 0
      [1, 1] [1, 1] [1, 1] [3, 5] rfl rfl rfl rfl rfl rfl rfl rfl (by simp)
  · rw [getCol_scenarioOut_pred]
    norm_num [lstsqFitted, projectOnto, orthogonalize, orthAux, orthStep, sumProj,
      projC, dot, vadd, vsub, smul, List.replicate, List.zipWith, List.map,
      List.sum, List.foldr]

/-- C4 amended: when the offset concentration columns are perfectly collinear
(here: the offset CO2 and CH4 columns coincide), generate_scenario still
succeeds — the library least-squares fit handles the degenerate regression —
and the returned table's predicted column holds the (finite) least-squares
fitted values; no singularity error is surfaced and no NaN values are
produced. -/
theorem generate_scenario_succeeds_on_collinear
    (s : Store) (r : Nat) (B : DataFrame) (a b c : ℚ) (c1 c2 c3 ty : Col)
    (hr : getObj s r = B)
    (h1 : getCol B "CO2_Concentration_ppm" = some c1)
    (h2 : getCol B "CH4_Concentration_ppb" = some c2)
    (h3 : getCol B "N2O_Concentration_ppb" = some c3)
    (hy : getCol B "Temperature_Anomaly_C" = some ty)
    (l1 : c1.length = ty.length) (l2 : c2.length = ty.length)
    (l3 : c3.length = ty.length) (hn : ty ≠ [])
    (hcol : c1.map (fun x => x + a) = c2.map (fun x => x + b)) :
    ∃ s' r', generate_scenario s r a b c = .ok (s', r') ∧
      getCol (getObj s' r') "Predicted_Temperature_Anomaly_C"
        = some (lstsqFitted
            [c1.map (fun x => x + a), c2.map (fun x => x + b), c3.map (fun x => x + c)]
            ty) := by
  refine ⟨_, _,
    generate_scenario_eq_of_cols s r B a b c c1 c2 c3 ty hr h1 h2 h3 hy l1 l2 l3 hn, ?_⟩
  rw [getObj_append_self]
  exact getCol_scenarioOut_pred B a b c c1 c2 c3 ty

/-- Witness for the amended C4: the collinear baseline with zero offsets. -/
theorem generate_scenario_succeeds_on_collinear_witness :
    getObj [collinearBaseline] 0 = collinearBaseline ∧
    getCol collinearBaseline "CO2_Concentration_ppm" = some [1, 1] ∧
    ([1, 1] : Col).map (fun x => x + 0) = ([1, 1] : Col).map (fun x => x + 0) ∧
    ([3, 5] : Col) ≠ [] ∧
    (∃ s' r', generate_scenario [collinearBaseline] 0 0 0 0 = .ok (s', r') ∧
      getCol (getObj s' r') "Predicted_Temperature_Anomaly_C"
        = some (lstsqFitted [([1, 1] : Col).map (fun x => x + 0),
            ([1, 1] : Col).map (fun x => x + 0),
            ([1, 1] : Col).map (fun x => x + 0)] [3, 5])) :=
  ⟨rfl, rfl, rfl, by simp,
    generate_scenario_succeeds_on_collinear [collinearBaseline] 0 collinearBaseline 0 0 0
      [1, 1] [1, 1] [1, 1] [3, 5] rfl rfl rfl rfl rfl rfl rfl rfl (by simp) rfl⟩
